import Mathlib

/-!
# Verification of the SSM session data channel (package `datachannel`)

Shallow embedding of `src/datachannel/data_channel.go` (type `SsmDataChannel`).

Modelling conventions:
* Byte strings are `List Nat`.
* Go `int64` arithmetic wraps; `atomic.AddInt64(&c.seqNum, 1)` is modelled by
  `wrap64 (seqNum + 1)`.
* The websocket transport is external (spec section 6): a successful
  `ws.WriteMessage` is modelled by recording the sent `AgentMessage` in the
  operation's result, and `ws.ReadMessage` by an `InEvent` input (a decoded
  frame, a frame failing envelope validation, or a transport read error).
* Generic JSON encoding is an external collaborator (spec section 1); each JSON
  document the channel exchanges is modelled by a simple injective tag-prefixed
  byte encoding whose decoder is a partial function, as Go `json.Unmarshal` is.
* `close` of an already-closed Go channel panics; the model records this in a
  `panicked` flag of the receive-loop result.
-/

namespace SSM

/-- `AgentMessage.MessageType` (closed enum, spec section 4.2). -/
inductive MessageType
  | InputStreamData
  | OutputStreamData
  | Acknowledge
  | ChannelClosed
deriving DecidableEq

/-- `AgentMessage.PayloadType` (closed enum, spec section 4.2). -/
inductive PayloadType
  | Output
  | Size
  | Flag
  | HandshakeRequest
  | HandshakeResponse
  | HandshakeComplete
  | Undefined
deriving DecidableEq

/-- The flag constants assigned to `AgentMessage.Flags`; the source assigns
exactly one per outbound message (spec section 4.2). -/
inductive AgentMessageFlag
  | Syn
  | Data
  | Ack
  | Fin
deriving DecidableEq

/-- The wire envelope, restricted to the fields `data_channel.go` reads or
writes.  `schemaVersion`, `createdDate`, `payloadDigest` and `payloadLength`
live entirely inside the envelope codec (another file of the repository) and
are not touched by the data-channel logic, so they are omitted.
`sequenceNumber` is a Go `int64`, modelled as `Int`. -/
structure AgentMessage where
  messageType : MessageType
  sequenceNumber : Int
  flags : AgentMessageFlag
  payloadType : PayloadType
  payload : List Nat
  messageId : Nat
deriving DecidableEq

/-- `ChannelClosedPayload{Output string}`; the Go string is a byte sequence. -/
structure ChannelClosedPayload where
  Output : List Nat
deriving DecidableEq

/-- Modelled from the spec: `RequestedClientAction` (section 3) lives outside
the given excerpt.  `ActionType` is a string tag; `ActionParameters` is opaque
JSON, modelled as an opaque `Nat` token. -/
structure RequestedClientAction where
  ActionType : String
  ActionParameters : Nat
deriving DecidableEq

/-- Modelled from the spec: `ProcessedClientAction` (section 3); the zero value
of the structure has empty `ActionType` and the unset (zero) status. -/
structure ProcessedClientAction where
  ActionType : String
  ActionStatus : Nat
deriving DecidableEq

/-- Modelled from the spec: `HandshakeRequestPayload` (section 3). -/
structure HandshakeRequestPayload where
  RequestedClientActions : List RequestedClientAction
deriving DecidableEq

/-- Modelled from the spec: `HandshakeResponsePayload` (section 3). -/
structure HandshakeResponsePayload where
  ClientVersion : String
  ProcessedClientActions : List ProcessedClientAction
deriving DecidableEq

/-- Modelled from the spec: the `SessionType` action-type constant
(section 4.2), the only action type the client supports. -/
def SessionType : String := "SessionType"

/-- Modelled from the spec: `ActionStatus` constants (section 4.2).  `Success`
is distinct from the zero (unset) status value `0`. -/
def Success : Nat := 1

/-- Modelled from the spec: `ActionStatus` constant `Failed` (section 4.2). -/
def Failed : Nat := 2

/-- Modelled from the spec: `ActionStatus` constant `Unsupported`
(section 4.2). -/
def Unsupported : Nat := 3

/-- Modelled from the spec: the 4-byte session-control value
`TerminateSession` carried in a `Flag` payload (section 4.2). -/
def terminateSessionValue : Nat := 1

/-- Modelled from the spec: the 4-byte session-control value
`DisconnectToPort` carried in a `Flag` payload (section 4.2). -/
def disconnectToPortValue : Nat := 2

/-- State of the `handshakeCh chan bool` field: `chNil` before `Open`
allocates it, `chOpen` once allocated, `chClosed` after `close`.  Go's `close`
on a `chClosed` channel panics; on `chNil` it is never attempted because of
the source's `!= nil` guard. -/
inductive HandshakeGate
  | chNil
  | chOpen
  | chClosed
deriving DecidableEq

/-- The mutable state of `SsmDataChannel` that `data_channel.go` manipulates:
the outbound sequence counter, the initial-Syn flag and the
handshake-completion channel.  The websocket handle and mutex are the external
transport / atomicity model. -/
structure ChannelState where
  seqNum : Int
  synSent : Bool
  handshakeCh : HandshakeGate
deriving DecidableEq

/-- `new(SsmDataChannel)`: zero-valued state, `handshakeCh` still nil. -/
def newChannel : ChannelState :=
  { seqNum := 0, synSent := false, handshakeCh := .chNil }

/-- State right after `Open` succeeded: `Open` allocates `handshakeCh`
(`make(chan bool, 1)`) before any traffic flows. -/
def openedChannel : ChannelState :=
  { seqNum := 0, synSent := false, handshakeCh := .chOpen }

/-- Two-sided wrap of Go `int64` arithmetic into `[-2^63, 2^63)`. -/
def wrap64 (x : Int) : Int := (x + 2 ^ 63) % 2 ^ 64 - 2 ^ 63

/-- Modelled from the spec: `NewAgentMessage` (the envelope constructor,
outside the given excerpt) returns a fresh envelope whose routing fields the
callers overwrite.  No claim depends on `messageId` uniqueness, so the id
source is fixed at `0`. -/
def NewAgentMessage : AgentMessage :=
  { messageType := .InputStreamData, sequenceNumber := 0, flags := .Data,
    payloadType := .Output, payload := [], messageId := 0 }

/-- Injective code for an `Int` inside a byte-string model. -/
def intCode (i : Int) : Nat :=
  if 0 ≤ i then 2 * i.toNat else 2 * (-i).toNat + 1

/-- Numeric code of a `MessageType`, used by the acknowledgment document. -/
def MessageType.code : MessageType → Nat
  | .InputStreamData => 0
  | .OutputStreamData => 1
  | .Acknowledge => 2
  | .ChannelClosed => 3

/-- Modelled from the spec: `json.Marshal` of the acknowledgment map built in
`SendAcknowledgeMessage` (section 4.3.6): acknowledged type, id, sequence
number, and `IsSequentialMessage=true`.  Total, as marshalling this map cannot
fail. -/
def jsonMarshalAck (m : AgentMessage) : List Nat :=
  3 :: m.messageType.code :: m.messageId :: intCode m.sequenceNumber :: [1]

/-- Modelled from the spec: `json.Unmarshal` into a `ChannelClosedPayload`
(section 4.4); a partial function on bytes, tag `4` marking a well-formed
document. -/
def jsonUnmarshalChannelClosed (bs : List Nat) : Option ChannelClosedPayload :=
  match bs with
  | 4 :: out => some { Output := out }
  | _ => none

/-- Modelled from the spec: the action-type string denoted by a code byte of
the handshake-request document. -/
def decodeActionType (n : Nat) : String :=
  if n = 1 then SessionType else "Action" ++ toString n

/-- Modelled from the spec: `json.Unmarshal` into a `HandshakeRequestPayload`
(section 4.3.5); tag `1`, then one action-type code byte per requested
action. -/
def jsonUnmarshalHandshakeReq (bs : List Nat) : Option HandshakeRequestPayload :=
  match bs with
  | 1 :: codes =>
      some { RequestedClientActions :=
               codes.map (fun n => { ActionType := decodeActionType n, ActionParameters := n }) }
  | _ => none

/-- Modelled from the spec: `json.Marshal` of a `HandshakeResponsePayload`;
total (marshalling cannot fail), tag `2`, statuses flattened. -/
def jsonMarshalHandshakeResponse (p : HandshakeResponsePayload) : List Nat :=
  2 :: p.ClientVersion.length :: p.ProcessedClientActions.length ::
    p.ProcessedClientActions.map (fun a => a.ActionStatus)

/-- Modelled from the spec: `json.Marshal` of the terminal-size map
(section 4.3 item `SetTerminalSize`); total. -/
def jsonMarshalSize (rows cols : Nat) : List Nat :=
  5 :: rows :: [cols]

/-- `binary.BigEndian.PutUint32` into a fresh 4-byte buffer. -/
def bigEndian4 (v : Nat) : List Nat :=
  [v / 2 ^ 24 % 256, v / 2 ^ 16 % 256, v / 2 ^ 8 % 256, v % 256]

/-- `buildHandshakeResponse`: `new(ProcessedClientAction)` (zero value), set
type and `Success` only when the requested type is `SessionType`, assign into
the result slot. -/
def processAction (a : RequestedClientAction) : ProcessedClientAction :=
  let action : ProcessedClientAction := { ActionType := "", ActionStatus := 0 }
  if a.ActionType = SessionType then
    { action with ActionType := a.ActionType, ActionStatus := Success }
  else
    action

/-- `buildHandshakeResponse` from `data_channel.go`: fixed client version
`"0.0.1"`, one processed slot per requested action in order. -/
def buildHandshakeResponse (actions : List RequestedClientAction) : HandshakeResponsePayload :=
  { ClientVersion := "0.0.1",
    ProcessedClientActions := actions.map processAction }

/-- `WriteMsg`: if the initial Syn has not been sent, store `0` into the
sequence counter and overwrite the message's flags and sequence number with
`Syn`/`0`; then (under the mutex) set `synSent` and hand the marshalled frame
to the websocket.  Marshalling of the closed message enums cannot fail and the
transport write is the external collaborator, so the result is the new state
paired with the message as it goes onto the wire. -/
def WriteMsg (c : ChannelState) (msg : AgentMessage) : ChannelState × AgentMessage :=
  if c.synSent = false then
    ({ c with seqNum := 0, synSent := true },
     { msg with flags := .Syn, sequenceNumber := 0 })
  else
    ({ c with synSent := true }, msg)

/-- `Write`: wrap the payload as `InputStreamData`/`Output`/`Data` with the
atomically incremented sequence number, then `WriteMsg`. -/
def Write (c : ChannelState) (payload : List Nat) : ChannelState × AgentMessage :=
  let seq := wrap64 (c.seqNum + 1)
  let msg := { NewAgentMessage with
    messageType := .InputStreamData, flags := .Data, payloadType := .Output,
    payload := payload, sequenceNumber := seq }
  WriteMsg { c with seqNum := seq } msg

/-- `SetTerminalSize`: JSON size document as `InputStreamData`/`Size`/`Data`
with the atomically incremented sequence number. -/
def SetTerminalSize (c : ChannelState) (rows cols : Nat) : ChannelState × AgentMessage :=
  let seq := wrap64 (c.seqNum + 1)
  let msg := { NewAgentMessage with
    messageType := .InputStreamData, flags := .Data, sequenceNumber := seq,
    payloadType := .Size, payload := jsonMarshalSize rows cols }
  WriteMsg { c with seqNum := seq } msg

/-- `SendAcknowledgeMessage`: build the acknowledgment document for the
inbound message, echo the inbound message's sequence number, tag
`Acknowledge`/`Ack`/`Undefined`, and `WriteMsg` it. -/
def SendAcknowledgeMessage (c : ChannelState) (msg : AgentMessage) : ChannelState × AgentMessage :=
  let agentMsg := { NewAgentMessage with
    messageType := .Acknowledge, sequenceNumber := msg.sequenceNumber,
    flags := .Ack, payloadType := .Undefined, payload := jsonMarshalAck msg }
  WriteMsg c agentMsg

/-- Errors surfaced by the receive path. -/
inductive RErr
  | eof
  | transport (code : Nat)
  | validation (code : Nat)
  | unmarshalErr
  | protocolPayload
  | protocolMsgType
deriving DecidableEq

/-- `ProcessHandshakeRequest`: unmarshal the request (an error is returned
unchanged), build and marshal the handshake response, echo the request's
sequence number, tag `InputStreamData`/`Data`/`HandshakeResponse`, and
`WriteMsg` it. -/
def ProcessHandshakeRequest (c : ChannelState) (msg : AgentMessage) :
    Except RErr (ChannelState × AgentMessage) :=
  match jsonUnmarshalHandshakeReq msg.payload with
  | none => .error .unmarshalErr
  | some req =>
      let payload := jsonMarshalHandshakeResponse (buildHandshakeResponse req.RequestedClientActions)
      let out := { NewAgentMessage with
        messageType := .InputStreamData, sequenceNumber := msg.sequenceNumber,
        flags := .Data, payloadType := .HandshakeResponse, payload := payload }
      .ok (WriteMsg c out)

/-- `TerminateSession`: `InputStreamData`/`Fin`/`Flag` with the incremented
sequence number and the 4-byte big-endian `TerminateSession` value. -/
def TerminateSession (c : ChannelState) : ChannelState × AgentMessage :=
  let seq := wrap64 (c.seqNum + 1)
  let msg := { NewAgentMessage with
    messageType := .InputStreamData, sequenceNumber := seq, flags := .Fin,
    payloadType := .Flag, payload := bigEndian4 terminateSessionValue }
  WriteMsg { c with seqNum := seq } msg

/-- `DisconnectPort`: `InputStreamData`/`Data`/`Flag` with the incremented
sequence number and the 4-byte big-endian `DisconnectToPort` value. -/
def DisconnectPort (c : ChannelState) : ChannelState × AgentMessage :=
  let seq := wrap64 (c.seqNum + 1)
  let msg := { NewAgentMessage with
    messageType := .InputStreamData, sequenceNumber := seq, flags := .Data,
    payloadType := .Flag, payload := bigEndian4 disconnectToPortValue }
  WriteMsg { c with seqNum := seq } msg

/-- One `ws.ReadMessage` outcome fed to `readMsg`: a frame that unmarshals
into an envelope, a frame failing envelope validation (`UnmarshalBinary`
error), or a transport read error. -/
inductive InEvent
  | frame (m : AgentMessage)
  | badFrame (code : Nat)
  | readFail (code : Nat)
deriving DecidableEq

/-- Result of one `readMsg` call: the new channel state, the messages handed
to the transport during the call in the order they were sent (all sends happen
before `readMsg` returns), the returned data slice (`none` models a nil
slice), the returned error, and whether the call panicked (Go `close` of a
closed channel). -/
structure ReadOut where
  state : ChannelState
  sent : List AgentMessage
  data : Option (List Nat)
  err : Option RErr
  panicked : Bool
deriving DecidableEq

/-- `readMsg`, the receive dispatch loop body: read one frame (transport and
validation errors abort), acknowledge it unconditionally, then dispatch on
`(messageType, payloadType)` exactly as the source's switch does. -/
def readMsg (c : ChannelState) (ev : InEvent) : ReadOut :=
  match ev with
  | .readFail code =>
      { state := c, sent := [], data := none, err := some (.transport code), panicked := false }
  | .badFrame code =>
      { state := c, sent := [], data := none, err := some (.validation code), panicked := false }
  | .frame m =>
      let ar := SendAcknowledgeMessage c m
      match m.messageType with
      | .Acknowledge =>
          { state := ar.1, sent := [ar.2], data := none, err := none, panicked := false }
      | .OutputStreamData =>
          match m.payloadType with
          | .Output =>
              { state := ar.1, sent := [ar.2], data := some m.payload, err := none,
                panicked := false }
          | .HandshakeRequest =>
              match ProcessHandshakeRequest ar.1 m with
              | .error e =>
                  { state := ar.1, sent := [ar.2], data := none, err := some e, panicked := false }
              | .ok r =>
                  { state := r.1, sent := [ar.2, r.2], data := none, err := none,
                    panicked := false }
          | .HandshakeComplete =>
              match ar.1.handshakeCh with
              | .chNil =>
                  { state := ar.1, sent := [ar.2], data := none, err := none, panicked := false }
              | .chOpen =>
                  { state := { ar.1 with handshakeCh := .chClosed }, sent := [ar.2],
                    data := none, err := none, panicked := false }
              | .chClosed =>
                  { state := ar.1, sent := [ar.2], data := none, err := none, panicked := true }
          | _ =>
              { state := ar.1, sent := [ar.2], data := none, err := some .protocolPayload,
                panicked := false }
      | .ChannelClosed =>
          match jsonUnmarshalChannelClosed m.payload with
          | none =>
              { state := ar.1, sent := [ar.2], data := none, err := some .unmarshalErr,
                panicked := false }
          | some p =>
              { state := ar.1, sent := [ar.2],
                data := if p.Output.length > 0 then some p.Output else none,
                err := some .eof, panicked := false }
      | .InputStreamData =>
          { state := ar.1, sent := [ar.2], data := none, err := some .protocolMsgType,
            panicked := false }

/-- Result of `Read`: the Go signature is `Read([]byte) (int, error)` with an
unnamed buffer parameter; the model carries the caller's buffer through to
show it is untouched. -/
structure ReadReturn where
  state : ChannelState
  buffer : List Nat
  n : Nat
  err : Option RErr
  panicked : Bool
deriving DecidableEq

/-- `Read`: one `readMsg`, returning `len(data)` and the error; the buffer
parameter is unnamed in the source and cannot be referenced, so it is returned
unchanged. -/
def Read (c : ChannelState) (ev : InEvent) (buf : List Nat) : ReadReturn :=
  let r := readMsg c ev
  { state := r.state, buffer := buf, n := (r.data.getD []).length, err := r.err,
    panicked := r.panicked }

/-- Result of `WriteTo`: bytes written to the sink in order, the `int64`
running count `n`, the error `WriteTo` returns (`none` when the event script
ran out while the loop would still be blocked reading), and the panic flag. -/
structure WriteToOut where
  state : ChannelState
  written : List Nat
  n : Int
  err : Option RErr
  panicked : Bool
deriving DecidableEq

/-- `WriteTo`: loop `readMsg`; whenever the returned data is non-nil, write it
to the sink and add its length to `n` (the sink's own error is ignored in the
source); break out of the loop on the first non-nil error and return that
error unchanged. -/
def WriteTo (c : ChannelState) : List InEvent → WriteToOut
  | [] => { state := c, written := [], n := 0, err := none, panicked := false }
  | ev :: evs =>
      let r := readMsg c ev
      if r.panicked then
        { state := r.state, written := [], n := 0, err := none, panicked := true }
      else
        let chunk := r.data.getD []
        let wn : Int := (chunk.length : Int)
        match r.err with
        | some e =>
            { state := r.state, written := chunk, n := wn, err := some e, panicked := false }
        | none =>
            let rest := WriteTo r.state evs
            { state := rest.state, written := chunk ++ rest.written, n := wn + rest.n,
              err := rest.err, panicked := rest.panicked }

/-- N sequential `Write` calls: thread the state, collect the wire messages in
order. -/
def writeSeq : ChannelState → List (List Nat) → ChannelState × List AgentMessage
  | c, [] => (c, [])
  | c, p :: ps =>
      let r := Write c p
      let rest := writeSeq r.1 ps
      (rest.1, r.2 :: rest.2)

/-! ## Helper lemmas -/

lemma writeMsg_sets_synSent (c : ChannelState) (msg : AgentMessage) :
    (WriteMsg c msg).1.synSent = true := by
  unfold WriteMsg
  split <;> rfl

lemma processHandshakeRequest_ok_synSent (c : ChannelState) (m : AgentMessage)
    (r : ChannelState × AgentMessage) (h : ProcessHandshakeRequest c m = .ok r) :
    r.1.synSent = true := by
  unfold ProcessHandshakeRequest at h
  rcases hj : jsonUnmarshalHandshakeReq m.payload with _ | req
  · rw [hj] at h
    cases h
  · rw [hj] at h
    cases h
    exact writeMsg_sets_synSent _ _

lemma readMsg_preserves_synSent (c : ChannelState) (ev : InEvent) (h : c.synSent = true) :
    (readMsg c ev).state.synSent = true := by
  cases ev with
  | readFail code => simpa [readMsg] using h
  | badFrame code => simpa [readMsg] using h
  | frame m =>
      have hack : (SendAcknowledgeMessage c m).1.synSent = true :=
        writeMsg_sets_synSent c _
      cases hmt : m.messageType with
      | Acknowledge => simpa [readMsg, hmt] using hack
      | InputStreamData => simpa [readMsg, hmt] using hack
      | ChannelClosed =>
          rcases hj : jsonUnmarshalChannelClosed m.payload with _ | p <;>
            simpa [readMsg, hmt, hj] using hack
      | OutputStreamData =>
          cases hpt : m.payloadType with
          | Output => simpa [readMsg, hmt, hpt] using hack
          | HandshakeComplete =>
              rcases hg : (SendAcknowledgeMessage c m).1.handshakeCh with _ | _ | _ <;>
                simpa [readMsg, hmt, hpt, hg] using hack
          | HandshakeRequest =>
              rcases hP : ProcessHandshakeRequest (SendAcknowledgeMessage c m).1 m with e | r
              · simpa [readMsg, hmt, hpt, hP] using hack
              · have hr := processHandshakeRequest_ok_synSent _ _ _ hP
                simpa [readMsg, hmt, hpt, hP] using hr
          | Size => simpa [readMsg, hmt, hpt] using hack
          | Flag => simpa [readMsg, hmt, hpt] using hack
          | HandshakeResponse => simpa [readMsg, hmt, hpt] using hack
          | Undefined => simpa [readMsg, hmt, hpt] using hack

lemma ack_keeps_messageType (c : ChannelState) (m : AgentMessage) :
    (SendAcknowledgeMessage c m).2.messageType = .Acknowledge := by
  unfold SendAcknowledgeMessage WriteMsg
  split <;> rfl

lemma wrap64_eq_self (x : Int) (hlo : -(2 ^ 63) ≤ x) (hhi : x < 2 ^ 63) :
    wrap64 x = x := by
  unfold wrap64
  have hpow : (2 : Int) ^ 64 = 2 ^ 63 + 2 ^ 63 := by norm_num
  have h1 : 0 ≤ x + 2 ^ 63 := by linarith
  have h2 : x + 2 ^ 63 < 2 ^ 64 := by linarith
  rw [Int.emod_eq_of_lt h1 h2]
  ring

lemma write_after_syn (c : ChannelState) (p : List Nat) (h : c.synSent = true) :
    Write c p =
      ({ c with seqNum := wrap64 (c.seqNum + 1), synSent := true },
       { NewAgentMessage with
         messageType := .InputStreamData, flags := .Data, payloadType := .Output,
         payload := p, sequenceNumber := wrap64 (c.seqNum + 1) }) := by
  simp [Write, WriteMsg, h]

lemma writeSeq_after_syn (ps : List (List Nat)) :
    ∀ c : ChannelState, c.synSent = true → 0 ≤ c.seqNum →
      c.seqNum + ps.length ≤ 2 ^ 63 - 1 →
      (writeSeq c ps).1.synSent = true ∧
      (writeSeq c ps).1.seqNum = c.seqNum + ps.length ∧
      (writeSeq c ps).2.length = ps.length ∧
      ∀ i, i < ps.length →
        ∃ m, (writeSeq c ps).2[i]? = some m ∧
          m.sequenceNumber = c.seqNum + 1 + i ∧ m.flags = .Data := by
  induction ps with
  | nil =>
      intro c h _ _
      refine ⟨h, by simp [writeSeq], by simp [writeSeq], ?_⟩
      intro i hi
      simp at hi
  | cons p ps ih =>
      intro c h hlo hhi
      have hcast : ((p :: ps).length : Int) = (ps.length : Int) + 1 := by
        push_cast [List.length_cons]
        ring
      have hw : wrap64 (c.seqNum + 1) = c.seqNum + 1 := by
        refine wrap64_eq_self _ (by linarith) ?_
        rw [hcast] at hhi
        linarith
      have hstep := write_after_syn c p h
      rw [hw] at hstep
      have hih := ih { c with seqNum := c.seqNum + 1, synSent := true }
        rfl (by simp; linarith) (by simp; rw [hcast] at hhi; linarith)
      refine ⟨?_, ?_, ?_, ?_⟩
      · simp only [writeSeq, hstep]
        exact hih.1
      · simp only [writeSeq, hstep]
        rw [hih.2.1, hcast]
        simp
        ring
      · simp only [writeSeq, hstep, List.length_cons]
        rw [hih.2.2.1]
      · intro i hi
        simp only [writeSeq, hstep]
        cases i with
        | zero =>
            refine ⟨{ messageType := .InputStreamData, sequenceNumber := c.seqNum + 1,
                      flags := .Data, payloadType := .Output, payload := p,
                      messageId := NewAgentMessage.messageId }, by simp, by simp, rfl⟩
        | succ j =>
            have hj : j < ps.length := by
              simpa [Nat.succ_lt_succ_iff] using hi
            rcases hih.2.2.2 j hj with ⟨m, hm, hseq, hfl⟩
            refine ⟨m, ?_, ?_, hfl⟩
            · simpa using hm
            · rw [hseq]
              simp
              ring

/-! ## Claim theorems -/

/-- C1: starting from a channel on which the initial Syn has not been sent, N
sequential `Write` calls put sequence numbers `0, 1, ..., N-1` on the wire;
the first envelope carries the `Syn` flag and every later envelope carries the
`Data` flag.  The bound `N ≤ 2^63` is the signed 64-bit capacity of the
sequence counter (spec section 3). -/
theorem write_sequence_numbers (c : ChannelState) (ps : List (List Nat))
    (hfresh : c.synSent = false) (hN : (ps.length : Int) ≤ 2 ^ 63) (i : Nat)
    (hi : i < ps.length) :
    (writeSeq c ps).2.length = ps.length ∧
    ∃ m, (writeSeq c ps).2[i]? = some m ∧
      m.sequenceNumber = i ∧
      m.flags = (if i = 0 then AgentMessageFlag.Syn else AgentMessageFlag.Data) := by
  cases ps with
  | nil => simp at hi
  | cons p ps =>
      have hstep : Write c p =
          ({ c with seqNum := 0, synSent := true },
           { NewAgentMessage with
             messageType := .InputStreamData, flags := .Syn, payloadType := .Output,
             payload := p, sequenceNumber := 0 }) := by
        simp [Write, WriteMsg, hfresh]
      have hcast : ((p :: ps).length : Int) = (ps.length : Int) + 1 := by
        push_cast [List.length_cons]
        ring
      have hih := writeSeq_after_syn ps { c with seqNum := 0, synSent := true }
        rfl (by simp) (by simp; rw [hcast] at hN; linarith)
      constructor
      · simp only [writeSeq, hstep, List.length_cons]
        rw [hih.2.2.1]
      · simp only [writeSeq, hstep]
        cases i with
        | zero =>
            refine ⟨{ messageType := .InputStreamData, sequenceNumber := 0,
                      flags := .Syn, payloadType := .Output, payload := p,
                      messageId := NewAgentMessage.messageId }, by simp, by simp, by simp⟩
        | succ j =>
            have hj : j < ps.length := by
              simpa [Nat.succ_lt_succ_iff] using hi
            rcases hih.2.2.2 j hj with ⟨m, hm, hseq, hfl⟩
            refine ⟨m, by simpa using hm, ?_, by simp [hfl]⟩
            rw [hseq]
            simp
            ring

/-- Witness for C1: three writes on a fresh channel; the second envelope has
sequence number `1` and the `Data` flag. -/
theorem write_sequence_numbers_witness :
    (writeSeq newChannel [[1], [2], [3]]).2.length = 3 ∧
    ∃ m, (writeSeq newChannel [[1], [2], [3]]).2[1]? = some m ∧
      m.sequenceNumber = 1 ∧
      m.flags = (if 1 = 0 then AgentMessageFlag.Syn else AgentMessageFlag.Data) :=
  write_sequence_numbers newChannel [[1], [2], [3]] (by decide) (by norm_num) 1
    (by decide)

/-- Channel state used in the C3 counterexample: the Syn was already sent and
the outbound counter stands at 3. -/
def cex3Channel : ChannelState := { seqNum := 3, synSent := true, handshakeCh := .chOpen }

/-- Inbound message with sequence number 7, used in the C3 counterexample. -/
def cex3Inbound : AgentMessage :=
  { NewAgentMessage with
    messageType := .OutputStreamData, sequenceNumber := 7, payload := [7] }

/-- C3 as stated is false on the code: acknowledging an inbound message with
sequence number 7 while the process-local counter stands at 3 sends an
envelope carrying 7 — the inbound number echoed, not the incremented counter
value 4 — and leaves the counter at 3. -/
theorem ack_echoes_not_increments :
    (SendAcknowledgeMessage cex3Channel cex3Inbound).2.sequenceNumber = 7 ∧
    (SendAcknowledgeMessage cex3Channel cex3Inbound).1.seqNum = 3 ∧
    ¬ ((SendAcknowledgeMessage cex3Channel cex3Inbound).2.sequenceNumber =
        cex3Channel.seqNum + 1) := by
  decide

/-- C3 amended: after the initial Syn, the outbound messages built by `Write`,
`SetTerminalSize`, `TerminateSession` and `DisconnectPort` increment the
process-local counter by 1 and carry the incremented value, while
`SendAcknowledgeMessage` and the handshake response of
`ProcessHandshakeRequest` echo the inbound message's sequence number and leave
the counter unchanged. -/
theorem seq_counter_discipline (c : ChannelState) (m : AgentMessage)
    (p : List Nat) (rows cols : Nat) (req : HandshakeRequestPayload)
    (hsyn : c.synSent = true) (hlo : 0 ≤ c.seqNum) (hhi : c.seqNum < 2 ^ 63 - 1) :
    ((Write c p).2.sequenceNumber = c.seqNum + 1 ∧
     (Write c p).1.seqNum = c.seqNum + 1) ∧
    ((SetTerminalSize c rows cols).2.sequenceNumber = c.seqNum + 1 ∧
     (SetTerminalSize c rows cols).1.seqNum = c.seqNum + 1) ∧
    ((TerminateSession c).2.sequenceNumber = c.seqNum + 1 ∧
     (TerminateSession c).1.seqNum = c.seqNum + 1) ∧
    ((DisconnectPort c).2.sequenceNumber = c.seqNum + 1 ∧
     (DisconnectPort c).1.seqNum = c.seqNum + 1) ∧
    ((SendAcknowledgeMessage c m).2.sequenceNumber = m.sequenceNumber ∧
     (SendAcknowledgeMessage c m).1.seqNum = c.seqNum) ∧
    (jsonUnmarshalHandshakeReq m.payload = some req →
      ∃ r, ProcessHandshakeRequest c m = .ok r ∧
        r.2.sequenceNumber = m.sequenceNumber ∧ r.1.seqNum = c.seqNum) := by
  have hw : wrap64 (c.seqNum + 1) = c.seqNum + 1 :=
    wrap64_eq_self _ (by linarith) (by linarith)
  refine ⟨?_, ?_, ?_, ?_, ?_, ?_⟩
  · constructor <;> simp [Write, WriteMsg, hsyn, hw]
  · constructor <;> simp [SetTerminalSize, WriteMsg, hsyn, hw]
  · constructor <;> simp [TerminateSession, WriteMsg, hsyn, hw]
  · constructor <;> simp [DisconnectPort, WriteMsg, hsyn, hw]
  · constructor <;> simp [SendAcknowledgeMessage, WriteMsg, hsyn]
  · intro hreq
    refine ⟨WriteMsg c
        { NewAgentMessage with
          messageType := .InputStreamData, sequenceNumber := m.sequenceNumber,
          flags := .Data, payloadType := .HandshakeResponse,
          payload := jsonMarshalHandshakeResponse
            (buildHandshakeResponse req.RequestedClientActions) }, ?_, ?_, ?_⟩
    · simp [ProcessHandshakeRequest, hreq]
    · simp [WriteMsg, hsyn]
    · simp [WriteMsg, hsyn]

/-- Inbound handshake-request frame used to witness C3 (amended). -/
def handshakeReqFrame : AgentMessage :=
  { NewAgentMessage with
    messageType := .OutputStreamData, payloadType := .HandshakeRequest,
    sequenceNumber := 11, payload := [1, 1, 2] }

/-- Witness for the amended C3 at the concrete state `cex3Channel` (counter 3,
Syn sent) and the concrete handshake-request frame with sequence number 11. -/
theorem seq_counter_discipline_witness :
    ((Write cex3Channel [9]).2.sequenceNumber = cex3Channel.seqNum + 1 ∧
     (Write cex3Channel [9]).1.seqNum = cex3Channel.seqNum + 1) ∧
    ((SetTerminalSize cex3Channel 24 80).2.sequenceNumber = cex3Channel.seqNum + 1 ∧
     (SetTerminalSize cex3Channel 24 80).1.seqNum = cex3Channel.seqNum + 1) ∧
    ((TerminateSession cex3Channel).2.sequenceNumber = cex3Channel.seqNum + 1 ∧
     (TerminateSession cex3Channel).1.seqNum = cex3Channel.seqNum + 1) ∧
    ((DisconnectPort cex3Channel).2.sequenceNumber = cex3Channel.seqNum + 1 ∧
     (DisconnectPort cex3Channel).1.seqNum = cex3Channel.seqNum + 1) ∧
    ((SendAcknowledgeMessage cex3Channel handshakeReqFrame).2.sequenceNumber =
        handshakeReqFrame.sequenceNumber ∧
     (SendAcknowledgeMessage cex3Channel handshakeReqFrame).1.seqNum =
        cex3Channel.seqNum) ∧
    (jsonUnmarshalHandshakeReq handshakeReqFrame.payload =
        some { RequestedClientActions :=
                 [{ ActionType := decodeActionType 1, ActionParameters := 1 },
                  { ActionType := decodeActionType 2, ActionParameters := 2 }] } →
      ∃ r, ProcessHandshakeRequest cex3Channel handshakeReqFrame = .ok r ∧
        r.2.sequenceNumber = handshakeReqFrame.sequenceNumber ∧
        r.1.seqNum = cex3Channel.seqNum) :=
  seq_counter_discipline cex3Channel handshakeReqFrame [9] 24 80
    { RequestedClientActions :=
        [{ ActionType := decodeActionType 1, ActionParameters := 1 },
         { ActionType := decodeActionType 2, ActionParameters := 2 }] }
    (by decide) (by decide) (by decide)

/-- Requested action of a non-`SessionType` type, for the C4 counterexample. -/
def portForwardAction : RequestedClientAction :=
  { ActionType := "PortForward", ActionParameters := 0 }

/-- C4 as stated is false on the code: a requested action whose type is not
`SessionType` is not echoed back — its processed entry is the complete zero
value, whose `ActionType` is the empty string rather than the requested
`"PortForward"`. -/
theorem handshake_response_not_echoing :
    (buildHandshakeResponse [portForwardAction]).ProcessedClientActions =
      [{ ActionType := "", ActionStatus := 0 }] ∧
    ¬ ((buildHandshakeResponse [portForwardAction]).ProcessedClientActions.map
          (fun a => a.ActionType) = [portForwardAction.ActionType]) := by
  decide

/-- C4 amended: `buildHandshakeResponse` returns the fixed client version
`"0.0.1"` and exactly one processed action per requested action, in order;
a `SessionType` request is marked with its type and status `Success`, and any
other request yields the zero-value entry (empty type, unset status). -/
theorem handshake_response_mapping (actions : List RequestedClientAction)
    (i : Nat) (hi : i < actions.length) :
    (buildHandshakeResponse actions).ClientVersion = "0.0.1" ∧
    (buildHandshakeResponse actions).ProcessedClientActions.length = actions.length ∧
    ∃ a, actions[i]? = some a ∧
      (buildHandshakeResponse actions).ProcessedClientActions[i]? =
        some (if a.ActionType = SessionType
              then { ActionType := a.ActionType, ActionStatus := Success }
              else { ActionType := "", ActionStatus := 0 }) := by
  refine ⟨rfl, by simp [buildHandshakeResponse], ?_⟩
  rcases h : actions[i]? with _ | a
  · rw [List.getElem?_eq_none_iff] at h
    omega
  · refine ⟨a, rfl, ?_⟩
    simp only [buildHandshakeResponse, List.getElem?_map, h, Option.map_some']
    unfold processAction
    split <;> rfl

/-- Requested action of the supported `SessionType` type. -/
def sessionAction : RequestedClientAction :=
  { ActionType := "SessionType", ActionParameters := 1 }

/-- Witness for the amended C4 on a two-action request, at the index of the
unsupported action. -/
theorem handshake_response_mapping_witness :
    (buildHandshakeResponse [sessionAction, portForwardAction]).ClientVersion = "0.0.1" ∧
    (buildHandshakeResponse [sessionAction, portForwardAction]).ProcessedClientActions.length =
      [sessionAction, portForwardAction].length ∧
    ∃ a, [sessionAction, portForwardAction][1]? = some a ∧
      (buildHandshakeResponse [sessionAction, portForwardAction]).ProcessedClientActions[1]? =
        some (if a.ActionType = SessionType
              then { ActionType := a.ActionType, ActionStatus := Success }
              else { ActionType := "", ActionStatus := 0 }) :=
  handshake_response_mapping [sessionAction, portForwardAction] 1 (by decide)

/-- Closing frame with no trailing output, for the C9 counterexample. -/
def emptyClosingFrame : AgentMessage :=
  { NewAgentMessage with
    messageType := .ChannelClosed, payload := [4], sequenceNumber := 5 }

/-- C9 as stated is false on the code: when the stream ends with a clean
`ChannelClosed` close, `readMsg` yields the `io.EOF`-shaped error and
`WriteTo` returns that error as is instead of converting it to a nil error
(the `io.EOF`-to-nil conversion exists only in `ReadFrom`). -/
theorem writeTo_propagates_eof :
    (WriteTo openedChannel [.frame emptyClosingFrame]).err = some .eof ∧
    ¬ ((WriteTo openedChannel [.frame emptyClosingFrame]).err = none) := by
  decide

/-- C9 amended: `WriteTo` loops reading frames until a read produces an
error; any bytes delivered alongside the error are still written to the sink,
and the error — including a clean `io.EOF`-shaped close — is returned
unchanged rather than being converted to normal termination. -/
theorem writeTo_returns_first_error (c : ChannelState) (ev : InEvent)
    (evs : List InEvent) (e : RErr) (hnp : (readMsg c ev).panicked = false) :
    ((readMsg c ev).err = some e →
       (WriteTo c (ev :: evs)).err = some e ∧
       (WriteTo c (ev :: evs)).written = (readMsg c ev).data.getD []) ∧
    ((readMsg c ev).err = none →
       (WriteTo c (ev :: evs)).err = (WriteTo (readMsg c ev).state evs).err) := by
  constructor
  · intro he
    constructor <;> simp [WriteTo, hnp, he]
  · intro he
    simp [WriteTo, hnp, he]

/-- Witness for the amended C9 at a concrete clean close. -/
theorem writeTo_returns_first_error_witness :
    (WriteTo openedChannel [.frame emptyClosingFrame]).err = some .eof ∧
    (WriteTo openedChannel [.frame emptyClosingFrame]).written =
      (readMsg openedChannel (.frame emptyClosingFrame)).data.getD [] :=
  (writeTo_returns_first_error openedChannel (.frame emptyClosingFrame) [] .eof
      (by decide)).1 (by decide)

/-- C2: for every inbound frame processed by `readMsg` whose payload is
returned to the calling reader, the acknowledgment message appears first in
the list of messages handed to the transport during that call; since every
element of `sent` is written to the transport before `readMsg` returns, a
caller never observes payload bytes from a frame whose acknowledgment has not
already been handed to the transport. -/
theorem ack_sent_before_data_delivered (c : ChannelState) (ev : InEvent) (d : List Nat)
    (h : (readMsg c ev).data = some d) :
    ∃ m, ev = InEvent.frame m ∧
      (readMsg c ev).sent.head? = some (SendAcknowledgeMessage c m).2 ∧
      (SendAcknowledgeMessage c m).2.messageType = .Acknowledge := by
  cases ev with
  | readFail code => simp [readMsg] at h
  | badFrame code => simp [readMsg] at h
  | frame m =>
      refine ⟨m, rfl, ?_, ack_keeps_messageType c m⟩
      rcases m with ⟨mt, seq, fl, pt, pl, mid⟩
      cases mt <;> cases pt <;>
        simp only [readMsg] <;>
        first
          | rfl
          | (split <;> rfl)

/-- Concrete frame delivering output bytes, used to witness C2. -/
def outputFrame : AgentMessage :=
  { NewAgentMessage with
    messageType := .OutputStreamData, payloadType := .Output,
    payload := [7, 8], sequenceNumber := 9 }

/-- Witness for C2 at a concrete output frame. -/
theorem ack_sent_before_data_delivered_witness :
    ∃ m, InEvent.frame outputFrame = InEvent.frame m ∧
      (readMsg openedChannel (.frame outputFrame)).sent.head? =
        some (SendAcknowledgeMessage openedChannel m).2 ∧
      (SendAcknowledgeMessage openedChannel m).2.messageType = .Acknowledge :=
  ack_sent_before_data_delivered openedChannel (.frame outputFrame) [7, 8] (by decide)

/-- C5: while the initial Syn has not been sent, `WriteMsg` overrides the
caller-supplied sequence number and flags with `0`/`Syn`; after any
`WriteMsg` the initial-send flag is `true`, it is preserved by the receive
loop, and once it is `true` every `WriteMsg` sends the caller's message
unchanged. -/
theorem writeMsg_initial_override (c : ChannelState) (msg : AgentMessage) (ev : InEvent) :
    (c.synSent = false →
        (WriteMsg c msg).2 = { msg with flags := .Syn, sequenceNumber := 0 }) ∧
    (WriteMsg c msg).1.synSent = true ∧
    (c.synSent = true → (WriteMsg c msg).2 = msg) ∧
    (c.synSent = true → (readMsg c ev).state.synSent = true) := by
  refine ⟨?_, writeMsg_sets_synSent c msg, ?_, readMsg_preserves_synSent c ev⟩
  · intro h
    simp [WriteMsg, h]
  · intro h
    simp [WriteMsg, h]

/-- Concrete message used to witness C5. -/
def probeMsg : AgentMessage :=
  { NewAgentMessage with
    messageType := .InputStreamData, sequenceNumber := 42,
    flags := .Fin, payloadType := .Size, payload := [1] }

/-- Witness for C5: on a fresh channel the first `WriteMsg` rewrites the
probe message to `Syn`/`0`; on the resulting state a second `WriteMsg` passes
the probe message through unchanged, and the receive loop keeps `synSent`. -/
theorem writeMsg_initial_override_witness :
    ((WriteMsg newChannel probeMsg).2 =
        { probeMsg with flags := .Syn, sequenceNumber := 0 }) ∧
    ((WriteMsg (WriteMsg newChannel probeMsg).1 probeMsg).2 = probeMsg) ∧
    ((readMsg (WriteMsg newChannel probeMsg).1 (.frame outputFrame)).state.synSent = true) :=
  ⟨(writeMsg_initial_override newChannel probeMsg (.frame outputFrame)).1 (by decide),
   (writeMsg_initial_override (WriteMsg newChannel probeMsg).1 probeMsg
      (.frame outputFrame)).2.2.1 (by decide),
   (writeMsg_initial_override (WriteMsg newChannel probeMsg).1 probeMsg
      (.frame outputFrame)).2.2.2 (by decide)⟩

/-- C6: a `ChannelClosed` frame whose decoded payload carries non-empty
output makes `readMsg` return exactly those output bytes together with the
end-of-stream error, without panicking. -/
theorem channelClosed_delivers_trailing_output (c : ChannelState) (m : AgentMessage)
    (p : ChannelClosedPayload) (hmt : m.messageType = .ChannelClosed)
    (hdec : jsonUnmarshalChannelClosed m.payload = some p) (hne : p.Output ≠ []) :
    (readMsg c (.frame m)).data = some p.Output ∧
    (readMsg c (.frame m)).err = some .eof ∧
    (readMsg c (.frame m)).panicked = false := by
  rcases m with ⟨mt, seq, fl, pt, pl, mid⟩
  cases hmt
  simp only [readMsg, hdec]
  have hlen : p.Output.length > 0 := List.length_pos.mpr hne
  simp [hlen]

/-- Concrete closing frame with trailing output, used to witness C6. -/
def closingFrame : AgentMessage :=
  { NewAgentMessage with
    messageType := .ChannelClosed, payload := [4, 10, 11],
    sequenceNumber := 3 }

/-- Witness for C6 at a concrete closing frame carrying output `[10, 11]`. -/
theorem channelClosed_delivers_trailing_output_witness :
    (readMsg openedChannel (.frame closingFrame)).data = some [10, 11] ∧
    (readMsg openedChannel (.frame closingFrame)).err = some .eof ∧
    (readMsg openedChannel (.frame closingFrame)).panicked = false :=
  channelClosed_delivers_trailing_output openedChannel closingFrame
    { Output := [10, 11] } (by decide) (by decide) (by decide)

/-- Concrete `OutputStreamData`/`HandshakeComplete` frame. -/
def handshakeCompleteFrame : AgentMessage :=
  { NewAgentMessage with
    messageType := .OutputStreamData,
    payloadType := .HandshakeComplete, sequenceNumber := 2 }

/-- C7 (code bug): on a channel whose handshake gate was allocated by `Open`,
the first `HandshakeComplete` frame closes the gate without panicking, but
processing a second `HandshakeComplete` frame calls Go `close` on the
already-closed channel — the source's `handshakeCh != nil` presence check does
not prevent it — which panics the receive loop. -/
theorem second_handshake_complete_panics :
    (readMsg openedChannel (.frame handshakeCompleteFrame)).panicked = false ∧
    (readMsg openedChannel (.frame handshakeCompleteFrame)).state.handshakeCh = .chClosed ∧
    (readMsg (readMsg openedChannel (.frame handshakeCompleteFrame)).state
        (.frame handshakeCompleteFrame)).panicked = true := by
  decide

/-- C8: an `OutputStreamData` frame with an unknown payload type, and a frame
with an unknown message type, both make `readMsg` return a terminal protocol
error and no payload bytes. -/
theorem unknown_types_error_no_data (c : ChannelState) (m : AgentMessage) :
    (m.messageType = .OutputStreamData → m.payloadType ≠ .Output →
     m.payloadType ≠ .HandshakeRequest → m.payloadType ≠ .HandshakeComplete →
     (readMsg c (.frame m)).data = none ∧
     (readMsg c (.frame m)).err = some .protocolPayload) ∧
    (m.messageType ≠ .Acknowledge → m.messageType ≠ .OutputStreamData →
     m.messageType ≠ .ChannelClosed →
     (readMsg c (.frame m)).data = none ∧
     (readMsg c (.frame m)).err = some .protocolMsgType) := by
  rcases m with ⟨mt, seq, fl, pt, pl, mid⟩
  cases mt <;> cases pt <;> simp [readMsg]

/-- Concrete `OutputStreamData` frame with the unhandled `Size` payload
type. -/
def strayPayloadFrame : AgentMessage :=
  { NewAgentMessage with
    messageType := .OutputStreamData, payloadType := .Size }

/-- Concrete inbound frame with message type `InputStreamData`, which the
dispatch switch does not handle. -/
def strayTypeFrame : AgentMessage :=
  { NewAgentMessage with
    messageType := .InputStreamData, payloadType := .Output }

/-- Witness for C8 at the two concrete stray frames. -/
theorem unknown_types_error_no_data_witness :
    ((readMsg openedChannel (.frame strayPayloadFrame)).data = none ∧
     (readMsg openedChannel (.frame strayPayloadFrame)).err = some .protocolPayload) ∧
    ((readMsg openedChannel (.frame strayTypeFrame)).data = none ∧
     (readMsg openedChannel (.frame strayTypeFrame)).err = some .protocolMsgType) :=
  ⟨(unknown_types_error_no_data openedChannel strayPayloadFrame).1
      (by decide) (by decide) (by decide) (by decide),
   (unknown_types_error_no_data openedChannel strayTypeFrame).2
      (by decide) (by decide) (by decide)⟩

/-- C10: `Read` never writes to the caller-supplied buffer (the parameter is
unnamed in the source): the buffer comes back bit-for-bit identical, and only
the received payload's length and the read error are returned. -/
theorem read_ignores_buffer (c : ChannelState) (ev : InEvent) (buf : List Nat)
    (h : (readMsg c ev).panicked = false) :
    (Read c ev buf).buffer = buf ∧
    (Read c ev buf).n = ((readMsg c ev).data.getD []).length ∧
    (Read c ev buf).err = (readMsg c ev).err := by
  simp [Read]

/-- Witness for C10: a concrete buffer survives a concrete output frame
unchanged while the payload's length is reported. -/
theorem read_ignores_buffer_witness :
    (Read openedChannel (.frame outputFrame) [1, 2, 3]).buffer = [1, 2, 3] ∧
    (Read openedChannel (.frame outputFrame) [1, 2, 3]).n =
      ((readMsg openedChannel (.frame outputFrame)).data.getD []).length ∧
    (Read openedChannel (.frame outputFrame) [1, 2, 3]).err =
      (readMsg openedChannel (.frame outputFrame)).err :=
  read_ignores_buffer openedChannel (.frame outputFrame) [1, 2, 3] (by decide)

end SSM
